import Mathlib

/-!
Verification of the device-topology resolver and metric normalizer of the
nvme_exporter program (main.go, current version).

The Go program shells out to `nvme list` / `nvme id-ctrl` / `nvme smart-log`
and parses their JSON output with the gjson library.  Here JSON documents are
modelled by the inductive type `Json`; the raw text of an external command is
modelled as `Option Json` (`none` standing for text that is not syntactically
valid JSON, i.e. `gjson.Valid` returning false).  JSON numbers are modelled as
exact rationals (the Go code reads them through float64; none of the verified
properties depend on float rounding).  The specific gjson path queries used by
the source (`Devices.#.Subsystems.#.Namespaces` and friends) are evaluated by
`evalPath`, which implements the documented gjson semantics of `#` collection:
applied to an array it collects the results of the remaining path on each
element, skipping elements where the path does not exist; `Result.Array()` on
a non-existent result is empty, and on a non-array value wraps it singly.
External command invocations are modelled as function arguments, together with
an explicit trace of the arguments they were called with where a claim is
about call counts.  `log.Fatalf` is modelled as `Except.error`.
-/

inductive Json where
  | null : Json
  | bool : Bool → Json
  | num : ℚ → Json
  | str : String → Json
  | arr : List Json → Json
  | obj : List (String × Json) → Json

/-- Field lookup in a JSON object: first binding wins (gjson behaviour on
duplicate keys); on non-objects or missing keys the result does not exist. -/
def Json.getField (j : Json) (k : String) : Option Json :=
  match j with
  | .obj fs => fs.lookup k
  | _ => none

/-- One step of a gjson path: a literal key, or the `#` collection operator. -/
inductive Step where
  | key : String → Step
  | hash : Step

/-- Evaluate a gjson path (restricted to the shapes the source uses: literal
keys and `#`).  `#` on an array collects the existing results of the rest of
the path over the elements; on anything else the result does not exist. -/
def evalPath (j : Json) (p : List Step) : Option Json :=
  match p with
  | [] => some j
  | Step.key k :: rest =>
    match j.getField k with
    | some v => evalPath v rest
    | none => none
  | Step.hash :: rest =>
    match j with
    | .arr xs => some (.arr (xs.filterMap (fun x => evalPath x rest)))
    | _ => none

/-- gjson `Result.Array()` on an existing result: a JSON array gives its
elements, null gives the empty list, any other value is wrapped singly. -/
def jElems : Json → List Json
  | .arr xs => xs
  | .null => []
  | j => [j]

/-- gjson `Result.Array()` including the non-existent case (empty list). -/
def jArr : Option Json → List Json
  | none => []
  | some j => jElems j

/-- gjson `Result.String()` for the value kinds occurring in the inventory
documents (strings; other kinds and non-existent results give ""). -/
def gjsonString : Option Json → String
  | some (.str s) => s
  | some (.bool true) => "true"
  | _ => ""

/-- Truncation of a rational toward zero, as Go `int64(float64)` does. -/
def ratTrunc (q : ℚ) : Int := Int.tdiv q.num (q.den : Int)

/-- gjson `Result.Int()` for the value kinds occurring here: numbers are
truncated toward zero, true is 1, everything else (including a non-existent
result) is 0. -/
def gjsonInt : Option Json → Int
  | some (.num q) => ratTrunc q
  | some (.bool true) => 1
  | _ => 0

/-- gjson `Result.Float()` for the value kinds occurring here: numbers give
their value, true is 1, everything else (including a non-existent result)
is 0. -/
def gjsonFloat : Option Json → ℚ
  | some (.num q) => q
  | some (.bool true) => 1
  | _ => 0

/-- Existence of a field, gjson `Result.Exists()` after a single-key `Get`. -/
def fieldExists (j : Json) (k : String) : Bool :=
  (j.getField k).isSome

/-- Record type `nvmeNamespace` from main.go.  `nsTotalCapacity` carries the
Go zero value 0 until the id-ctrl enrichment loop fills it in. -/
structure nvmeNamespace where
  devicePath : String
  nsController : String
  nsPhysicalSize : Int
  nsTotalCapacity : Int
  nsMaximumLBA : Int
  nsUsedBytes : Int
  nsSectorSize : Int
deriving DecidableEq, Repr

/-- Bool test that `pat` occurs at the head of `l`. -/
def listStartsWith : List Char → List Char → Bool
  | [], _ => true
  | _ :: _, [] => false
  | p :: ps, x :: xs => if p = x then listStartsWith ps xs else false

/-- Maximal run of decimal digits at the head of the list, and the rest. -/
def spanDigits : List Char → List Char × List Char
  | [] => ([], [])
  | c :: rest =>
    if c.isDigit then
      let p := spanDigits rest
      (c :: p.1, p.2)
    else ([], c :: rest)

/-- Whether the last character of the list is a decimal digit. -/
def lastIsDigit (l : List Char) : Bool :=
  match l.getLast? with
  | some c => c.isDigit
  | none => false

/-- Attempt of the regex `^.*(nvme\d+).*\d+$` (from `getControllerFromNs`)
with the capture group starting at the head of the given suffix, returning
the captured submatch.  The capture takes the maximal digit run after the
literal `nvme`; the remainder must still match `.*\d+$`, i.e. be non-empty
and end in a digit; when the digit run reaches the end of the string the
greedy capture backtracks by exactly one digit, which must exist. -/
def tryCapture (l : List Char) : Option (List Char) :=
  if listStartsWith ['n', 'v', 'm', 'e'] l then
    let p := spanDigits (l.drop 4)
    if p.1 = [] then none
    else if p.2 = [] then
      if 2 ≤ p.1.length then some ('n' :: 'v' :: 'm' :: 'e' :: p.1.dropLast)
      else none
    else
      if lastIsDigit p.2 then some ('n' :: 'v' :: 'm' :: 'e' :: p.1)
      else none
  else none

/-- Backtracking search for the capture of `^.*(nvme\d+).*\d+$` under Go
leftmost-first semantics: the leading greedy `.*` makes the engine prefer
the rightmost position at which the rest of the pattern matches. -/
def auxScan : List Char → Option (List Char)
  | [] => none
  | c :: rest =>
    match auxScan rest with
    | some r => some r
    | none => tryCapture (c :: rest)

/-- `getControllerFromNs` from main.go: extract the controller token from a
namespace device name via the regex `^.*(nvme\d+).*\d+$`; `log.Fatalf` on
non-matching input is modelled as `Except.error`. -/
def getControllerFromNs (ns : String) : Except String String :=
  match auxScan ns.data with
  | some cap => Except.ok (String.mk cap)
  | none =>
    Except.error ("nvme device file [" ++ ns ++ "] does not match expected format")

/-- Construction of one device record in the bare-namespace branch of
`getDeviceList` (namespace objects directly under a subsystem): the
controller is inferred from the `NameSpace` name. -/
def parseBareNamespace (nsJ : Json) : Except String nvmeNamespace := do
  let ns := gjsonString (nsJ.getField "NameSpace")
  let controller ← getControllerFromNs ns
  pure
    { devicePath := "/dev/" ++ ns
      nsPhysicalSize := gjsonInt (nsJ.getField "PhysicalSize")
      nsUsedBytes := gjsonInt (nsJ.getField "UsedBytes")
      nsSectorSize := gjsonInt (nsJ.getField "SectorSize")
      nsMaximumLBA := gjsonInt (nsJ.getField "MaximumLBA")
      nsController := controller
      nsTotalCapacity := 0 }

/-- Construction of the device records of one controller object in the
controller branch of `getDeviceList`: the controller names itself via the
`Controller` field, which must be non-empty (`log.Fatalf` otherwise), and
carries its own `Namespaces` list. -/
def parseControllerEntry (c : Json) : Except String (List nvmeNamespace) :=
  let controllerID := gjsonString (c.getField "Controller")
  if controllerID = "" then
    Except.error "No controller found"
  else
    Except.ok ((jArr (c.getField "Namespaces")).map (fun nsJ =>
      { devicePath := "/dev/" ++ gjsonString (nsJ.getField "NameSpace")
        nsPhysicalSize := gjsonInt (nsJ.getField "PhysicalSize")
        nsUsedBytes := gjsonInt (nsJ.getField "UsedBytes")
        nsSectorSize := gjsonInt (nsJ.getField "SectorSize")
        nsMaximumLBA := gjsonInt (nsJ.getField "MaximumLBA")
        nsController := controllerID
        nsTotalCapacity := 0 }))

/-- Construction of one device record in the flat legacy branch of
`getDeviceList`: the entry exposes only a `DevicePath`, the controller is
inferred from it, and every size field is the sentinel -1. -/
def parseLegacyPath (dp : Json) : Except String nvmeNamespace := do
  let path := gjsonString (some dp)
  let controller ← getControllerFromNs path
  pure
    { devicePath := path
      nsController := controller
      nsPhysicalSize := -1
      nsUsedBytes := -1
      nsSectorSize := -1
      nsMaximumLBA := -1
      nsTotalCapacity := 0 }

/-- The gjson query guarding the bare-namespace branch of `getDeviceList`. -/
def branchAGuard (doc : Json) : List Json :=
  jArr (evalPath doc [Step.key "Devices", Step.hash, Step.key "Subsystems", Step.hash, Step.key "Namespaces"])

/-- The gjson query guarding the controller branch of `getDeviceList`. -/
def branchBGuard (doc : Json) : List Json :=
  jArr (evalPath doc [Step.key "Devices", Step.hash, Step.key "Subsystems", Step.hash, Step.key "Controllers"])

/-- The gjson query guarding the flat legacy branch of `getDeviceList`. -/
def branchCGuard (doc : Json) : List Json :=
  jArr (evalPath doc [Step.key "Devices", Step.hash, Step.key "DevicePath"])

/-- Records contributed by the bare-namespace branch alone (the two nested
`.Array()` loops of the source flattened in order). -/
def branchADevices (doc : Json) : Except String (List nvmeNamespace) :=
  if 0 < (branchAGuard doc).length then
    (((branchAGuard doc).flatMap jElems).flatMap jElems).mapM parseBareNamespace
  else
    Except.ok []

/-- Records contributed by the controller branch alone. -/
def branchBDevices (doc : Json) : Except String (List nvmeNamespace) := do
  let parts ← (((branchBGuard doc).flatMap jElems).flatMap jElems).mapM parseControllerEntry
  pure parts.flatten

/-- Records contributed by the flat legacy branch alone. -/
def branchCDevices (doc : Json) : Except String (List nvmeNamespace) :=
  (branchCGuard doc).mapM parseLegacyPath

/-- `getDeviceList` from main.go.  The input `none` models raw text rejected
by `gjson.Valid`.  The bare-namespace loop appends to `deviceList` and falls
through; the controller branch, when its query is non-empty, appends its own
records and returns; otherwise the flat legacy branch returns its records or
fails fatally ("No NVMe Devices found"). -/
def getDeviceList (input : Option Json) : Except String (List nvmeNamespace) :=
  match input with
  | none => Except.error "nvmeListOutput json is not valid"
  | some doc =>
    Except.bind
      (if 0 < (branchAGuard doc).length then
        (((branchAGuard doc).flatMap jElems).flatMap jElems).mapM parseBareNamespace
      else Except.ok [])
      (fun listA =>
        if 0 < (branchBGuard doc).length then
          Except.bind
            ((((branchBGuard doc).flatMap jElems).flatMap jElems).mapM parseControllerEntry)
            (fun parts => Except.ok (listA ++ parts.flatten))
        else
          if 0 < (branchCGuard doc).length then
            Except.bind ((branchCGuard doc).mapM parseLegacyPath)
              (fun listC => Except.ok (listA ++ listC))
          else
            Except.error "No NVMe Devices found")

/-- Kind of a metric sample (prometheus.GaugeValue / prometheus.CounterValue). -/
inductive MetricKind where
  | gauge : MetricKind
  | counter : MetricKind
deriving DecidableEq, Repr

/-- One metric sample sent to the channel: the metric name of the
prometheus.Desc (as built in newNvmeCollector), the value kind, the value,
and the device label. -/
structure HealthSample where
  metricName : String
  kind : MetricKind
  value : ℚ
  label : String
deriving DecidableEq, Repr

/-- Go `strings.Contains s pat`: some suffix of `s` starts with `pat`. -/
def strContains (s pat : String) : Bool :=
  s.data.tails.any (fun t => listStartsWith pat.data t)

/-- Temperature-unit adjustment of `makeMetric`: values of fields whose
queried name mentions "temperature" arrive in Kelvin and are converted
according to the configured scale; any unrecognized scale passes through. -/
def tempAdjust (scale : String) (v : ℚ) : ℚ :=
  let v1 := if scale = "celsius" then v - 273 else v
  if scale = "fahrenheit" then (v1 - 27315/100) * 9 / 5 + 32 else v1

/-- `makeMetric` from main.go: query `substring` in the given document,
convert if the queried field name mentions "temperature", and build the
sample for the Desc named `metricName`. -/
def makeMetric (scale : String) (metricName : String) (kind : MetricKind)
    (doc : Json) (substring : String) (label : String) : HealthSample :=
  let value := gjsonFloat (evalPath doc [Step.key substring])
  let value := if strContains substring "temperature" then tempAdjust scale value else value
  { metricName := metricName, kind := kind, value := value, label := label }

/-- Field name `temperature_sensor_i` probed by the sensor loop. -/
def sensorFieldName (i : Nat) : String := "temperature_sensor_" ++ toString i

/-- Metric name `nvme_temperature_sensori` of the i-th sensor Desc. -/
def sensorMetricName (i : Nat) : String := "nvme_temperature_sensor" ++ toString i

/-- The sensor loop of Collect: for i = 1..8 probe `temperature_sensor_i`,
breaking at the first index that does not exist, and emit a gauge sample
(through makeMetric, hence unit-converted) for each index that does. -/
def sensorLoop (scale : String) (doc : Json) (path : String) : Nat → Nat → List HealthSample
  | 0, _ => []
  | fuel + 1, i =>
    if fieldExists doc (sensorFieldName i) then
      makeMetric scale (sensorMetricName i) MetricKind.gauge doc (sensorFieldName i) path
        :: sensorLoop scale doc path fuel (i + 1)
    else []

/-- Whether a gjson result has Type == gjson.JSON (a nested object or array). -/
def isJsonKind : Option Json → Bool
  | some (.obj _) => true
  | some (.arr _) => true
  | _ => false

/-- The seven critical_warning sub-field samples of the new-generation
branch; `cw` is the nested critical_warning document itself. -/
def cwObjectSamples (scale : String) (cw : Json) (path : String) : List HealthSample :=
  [ makeMetric scale "nvme_critical_warning" MetricKind.gauge cw "value" path
  , makeMetric scale "nvme_available_spare_critical" MetricKind.gauge cw "available_spare" path
  , makeMetric scale "nvme_temp_threshold_exceeded" MetricKind.gauge cw "temp_threshold" path
  , makeMetric scale "nvme_reliability_degraded" MetricKind.gauge cw "reliability_degraded" path
  , makeMetric scale "nvme_readonly" MetricKind.gauge cw "ro" path
  , makeMetric scale "nvme_vmbu_failed" MetricKind.gauge cw "vmbu_failed" path
  , makeMetric scale "nvme_pmr_ro" MetricKind.gauge cw "pmr_ro" path ]

/-- The unconditional tail of Collect for one device: the fixed field table,
including the two mis-transcribed thermal-time queries of the source
(`thm_temp3_total_time` and `thm_temp1_total_time`). -/
def tailSamples (scale : String) (doc : Json) (path : String) : List HealthSample :=
  [ makeMetric scale "nvme_temperature" MetricKind.gauge doc "temperature" path
  , makeMetric scale "nvme_avail_spare" MetricKind.gauge doc "avail_spare" path
  , makeMetric scale "nvme_spare_thresh" MetricKind.gauge doc "spare_thresh" path
  , makeMetric scale "nvme_percent_used" MetricKind.gauge doc "percent_used" path
  , makeMetric scale "nvme_endurance_grp_critical_warning_summary" MetricKind.gauge doc "endurance_grp_critical_warning_summary" path
  , makeMetric scale "nvme_data_units_read" MetricKind.counter doc "data_units_read" path
  , makeMetric scale "nvme_data_units_written" MetricKind.counter doc "data_units_written" path
  , makeMetric scale "nvme_host_read_commands" MetricKind.counter doc "host_read_commands" path
  , makeMetric scale "nvme_host_write_commands" MetricKind.counter doc "host_write_commands" path
  , makeMetric scale "nvme_controller_busy_time" MetricKind.counter doc "controller_busy_time" path
  , makeMetric scale "nvme_power_cycles" MetricKind.counter doc "power_cycles" path
  , makeMetric scale "nvme_power_on_hours" MetricKind.counter doc "power_on_hours" path
  , makeMetric scale "nvme_unsafe_shutdowns" MetricKind.counter doc "unsafe_shutdowns" path
  , makeMetric scale "nvme_media_errors" MetricKind.counter doc "media_errors" path
  , makeMetric scale "nvme_num_err_log_entries" MetricKind.counter doc "num_err_log_entries" path
  , makeMetric scale "nvme_warning_temp_time" MetricKind.counter doc "warning_temp_time" path
  , makeMetric scale "nvme_critical_comp_time" MetricKind.counter doc "critical_comp_time" path
  , makeMetric scale "nvme_thm_temp1_trans_count" MetricKind.counter doc "thm_temp1_trans_count" path
  , makeMetric scale "nvme_thm_temp2_trans_count" MetricKind.counter doc "thm_temp2_trans_count" path
  , makeMetric scale "nvme_thm_temp1_trans_time" MetricKind.counter doc "thm_temp3_total_time" path
  , makeMetric scale "nvme_thm_temp2_trans_time" MetricKind.counter doc "thm_temp1_total_time" path ]

/-- The samples Collect emits for one device from its smart-log document
(main.go lines 963-1006): dispatch on the JSON kind of `critical_warning`,
then the sensor loop (new generation only), then the fixed tail. -/
def extractSamples (scale : String) (doc : Json) (path : String) : List HealthSample :=
  let cw := doc.getField "critical_warning"
  let head :=
    if isJsonKind cw then
      cwObjectSamples scale (cw.getD Json.null) path ++ sensorLoop scale doc path 8 1
    else
      [makeMetric scale "nvme_critical_warning" MetricKind.gauge doc "critical_warning" path]
  head ++ tailSamples scale doc path

/-- The health-metric extraction for one device including the validity gate
of the source: raw text that is not valid JSON (`none`) is fatal and emits
nothing. -/
def extract (scale : String) (input : Option Json) (path : String) :
    Except String (List HealthSample) :=
  match input with
  | none => Except.error ("nvmeSmartLog json is not valid for device: " ++ path)
  | some doc => Except.ok (extractSamples scale doc path)

/-- Capacity of one controller as the enrichment loop reads it: the raw
id-ctrl output (an external fetch modelled as a function) queried for
`tnvmcap`.  The source does not validity-check this document; gjson yields
the zero value on any failure, so the fetch is modelled total. -/
def capOf (fetchIdCtrl : String → Option Json) (controller : String) : Int :=
  gjsonInt ((fetchIdCtrl controller).bind (fun j => evalPath j [Step.key "tnvmcap"]))

/-- The id-ctrl enrichment loop of Collect (main.go lines 943-950): for every
record of the device list, in order, run `nvme id-ctrl` on the record
controller and store the `tnvmcap` value into the record.  The second
component is the trace of controller arguments of the external invocations,
in call order. -/
def enrichDeviceList (fetchIdCtrl : String → Option Json) :
    List nvmeNamespace → List nvmeNamespace × List String
  | [] => ([], [])
  | d :: rest =>
    let p := enrichDeviceList fetchIdCtrl rest
    ({ d with nsTotalCapacity := capOf fetchIdCtrl d.nsController } :: p.1,
     d.nsController :: p.2)

/-- Modelled from the spec (section 4.3): deduplication of controller ids in
order of first appearance, as the claimed one-lookup-per-distinct-controller
discipline would produce.  This is the claimed behaviour, to be compared
with the per-record trace of `enrichDeviceList`. -/
def dedupFirst : List String → List String
  | [] => []
  | c :: rest => c :: (dedupFirst rest).filter (fun x => x ≠ c)

/-- Whether a sample belongs to the temperature-sensor metric family
(metric name begins with `nvme_temperature_sensor`). -/
def isSensorSample (s : HealthSample) : Bool :=
  listStartsWith "nvme_temperature_sensor".data s.metricName.data

/-- Whether a sample belongs to the critical_warning metric family: the
scalar/`value` metric itself or one of the six sub-field metrics. -/
def isCWFamily (s : HealthSample) : Bool :=
  s.metricName == "nvme_critical_warning" ||
  s.metricName == "nvme_available_spare_critical" ||
  s.metricName == "nvme_temp_threshold_exceeded" ||
  s.metricName == "nvme_reliability_degraded" ||
  s.metricName == "nvme_readonly" ||
  s.metricName == "nvme_vmbu_failed" ||
  s.metricName == "nvme_pmr_ro"

/-- First sample carrying the given metric name, if any. -/
def findSample (l : List HealthSample) (name : String) : Option HealthSample :=
  l.find? (fun s => s.metricName == name)

/-- The declarative pattern of the `getControllerFromNs` regex
`^.*(nvme\d+).*\d+$`, in the words of the spec: the input contains a
controller token `nvme` followed by at least one digit, followed eventually
by a trailing non-empty run of digits. -/
def HasPattern (s : String) : Prop :=
  ∃ a d b e : List Char,
    s.data = a ++ ['n', 'v', 'm', 'e'] ++ d ++ b ++ e ∧
    d ≠ [] ∧ e ≠ [] ∧ (∀ c ∈ d, c.isDigit = true) ∧ (∀ c ∈ e, c.isDigit = true)

/-- Namespace JSON object of the subsystem-level inventory shapes, with the
fields `getDeviceList` reads plus the usual decorations. -/
def nsObj (name : String) (used lba phys sect : Int) : Json :=
  Json.obj
    [ ("NameSpace", Json.str name), ("Generic", Json.str "g"), ("NSID", Json.num 1)
    , ("UsedBytes", Json.num (used : ℚ)), ("MaximumLBA", Json.num (lba : ℚ))
    , ("PhysicalSize", Json.num (phys : ℚ)), ("SectorSize", Json.num (sect : ℚ)) ]

/-- Subsystem in the bare-namespace shape: namespaces directly under the
subsystem, no controller layer. -/
def bareSubsystem (ns : List Json) : Json :=
  Json.obj [("Subsystem", Json.str "subsys"), ("Namespaces", Json.arr ns)]

/-- Subsystem in the controller-namespace shape: one controller naming
itself, carrying the namespaces; the subsystem-level namespace list is
present but empty, as nvme-cli emits it. -/
def ctrlSubsystem (ctrl : String) (ns : List Json) : Json :=
  Json.obj
    [ ("Subsystem", Json.str "subsys")
    , ("Controllers", Json.arr [Json.obj [("Controller", Json.str ctrl), ("Namespaces", Json.arr ns)]])
    , ("Namespaces", Json.arr []) ]

/-- Inventory document with one host device holding the given subsystems. -/
def topDoc (subsystems : List Json) : Json :=
  Json.obj
    [ ("Devices", Json.arr
        [Json.obj [("HostNQN", Json.str "h"), ("Subsystems", Json.arr subsystems)]]) ]

/-- Canonical namespace device name `nvme<d1>n<d2>` built from digit runs. -/
def canonNsName (d1 d2 : List Char) : String :=
  String.mk ('n' :: 'v' :: 'm' :: 'e' :: (d1 ++ 'n' :: d2))

/-- Controller token `nvme<d1>` of a canonical namespace name. -/
def canonCtrl (d1 : List Char) : String :=
  String.mk ('n' :: 'v' :: 'm' :: 'e' :: d1)

/-- Mixed inventory document: a bare-shape subsystem holding nvme9n1 first,
then a controller-shape subsystem holding nvme3n1 (the shape of the
TestGetDeviceListV4 fixture, reduced to one namespace per subsystem). -/
def mixedDoc : Json :=
  topDoc
    [ bareSubsystem [nsObj "nvme9n1" 137438953472 268435456 137438953472 512]
    , ctrlSubsystem "nvme3" [nsObj "nvme3n1" 7486193664 1875385008 960197124096 512] ]

/-- Record produced for nvme9n1 by the bare-namespace branch of `mixedDoc`. -/
def recBare : nvmeNamespace :=
  { devicePath := "/dev/nvme9n1", nsController := "nvme9"
    nsPhysicalSize := 137438953472, nsTotalCapacity := 0
    nsMaximumLBA := 268435456, nsUsedBytes := 137438953472, nsSectorSize := 512 }

/-- Record produced for nvme3n1 by the controller branch of `mixedDoc`. -/
def recCtrl : nvmeNamespace :=
  { devicePath := "/dev/nvme3n1", nsController := "nvme3"
    nsPhysicalSize := 960197124096, nsTotalCapacity := 0
    nsMaximumLBA := 1875385008, nsUsedBytes := 7486193664, nsSectorSize := 512 }

/-- Mixed inventory document with the controller-shape subsystem (nvme3n1)
listed before the bare-shape subsystem (nvme9n1). -/
def mixedDocCtrlFirst : Json :=
  topDoc
    [ ctrlSubsystem "nvme3" [nsObj "nvme3n1" 7486193664 1875385008 960197124096 512]
    , bareSubsystem [nsObj "nvme9n1" 137438953472 268435456 137438953472 512] ]

/-- Descriptor of one entry of a flat legacy inventory document. -/
structure LegacyEntryData where
  path : String
  controller : String
  nsid : Int
  used : Int
  lba : Int
  phys : Int
  sect : Int

/-- Flat legacy inventory entry: a bare object exposing a `DevicePath` and
the usual old-nvme-cli decorations (whose size fields `getDeviceList`
ignores in this branch). -/
def legacyEntry (x : LegacyEntryData) : Json :=
  Json.obj
    [ ("NameSpace", Json.num (x.nsid : ℚ)), ("DevicePath", Json.str x.path)
    , ("Firmware", Json.str "fw"), ("ModelNumber", Json.str "m"), ("SerialNumber", Json.str "s")
    , ("UsedBytes", Json.num (x.used : ℚ)), ("MaximumLBA", Json.num (x.lba : ℚ))
    , ("PhysicalSize", Json.num (x.phys : ℚ)), ("SectorSize", Json.num (x.sect : ℚ)) ]

/-- Flat legacy inventory document. -/
def legacyDoc (entries : List Json) : Json :=
  Json.obj [("Devices", Json.arr entries)]

/-- Device record produced by the flat legacy branch for one entry. -/
def legacyRecord (x : LegacyEntryData) : nvmeNamespace :=
  { devicePath := x.path, nsController := x.controller
    nsPhysicalSize := -1, nsTotalCapacity := 0
    nsMaximumLBA := -1, nsUsedBytes := -1, nsSectorSize := -1 }

/-- Two device records sharing one controller, as arise when two namespaces
are attached to the same controller. -/
def twoSharedRecords : List nvmeNamespace :=
  [ { devicePath := "/dev/nvme0n1", nsController := "nvme0"
      nsPhysicalSize := 100, nsTotalCapacity := 0
      nsMaximumLBA := 10, nsUsedBytes := 50, nsSectorSize := 512 }
  , { devicePath := "/dev/nvme0n2", nsController := "nvme0"
      nsPhysicalSize := 200, nsTotalCapacity := 0
      nsMaximumLBA := 20, nsUsedBytes := 60, nsSectorSize := 512 } ]

/-- Health-log document with a nested critical_warning, sensors 1-3
present, sensor 4 absent and sensor 5 present (exercising the gap rule). -/
def c5doc : Json :=
  Json.obj
    [ ("critical_warning", Json.obj [("value", Json.num 0)])
    , ("temperature_sensor_1", Json.num 302)
    , ("temperature_sensor_2", Json.num 298)
    , ("temperature_sensor_3", Json.num 296)
    , ("temperature_sensor_5", Json.num 280) ]

theorem auxScan_cons_none {c : Char} {rest : List Char} (h : auxScan rest = none) :
    auxScan (c :: rest) = tryCapture (c :: rest) := by
  simp [auxScan, h]

theorem tryCapture_not_n {c : Char} {l : List Char} (h : c ≠ 'n') :
    tryCapture (c :: l) = none := by
  simp [tryCapture, listStartsWith, Ne.symm h]

theorem digit_ne_of {c : Char} (h : c.isDigit = true) {x : Char} (hx : x.isDigit = false) :
    c ≠ x := by
  intro e
  rw [e, hx] at h
  exact Bool.false_ne_true h

theorem scan_digits {l : List Char} (h : ∀ c ∈ l, c.isDigit = true) : auxScan l = none := by
  induction l with
  | nil => rfl
  | cons c rest ih =>
    have hrest : auxScan rest = none := ih (fun x hx => h x (List.mem_cons_of_mem c hx))
    rw [auxScan_cons_none hrest]
    exact tryCapture_not_n (digit_ne_of (h c (List.mem_cons_self c rest)) (by decide))

theorem scan_n_digits {d2 : List Char} (h2 : d2 ≠ []) (hd2 : ∀ c ∈ d2, c.isDigit = true) :
    auxScan ('n' :: d2) = none := by
  rw [auxScan_cons_none (scan_digits hd2)]
  cases d2 with
  | nil => exact absurd rfl h2
  | cons c rest =>
    have hc : c ≠ 'v' := digit_ne_of (hd2 c (List.mem_cons_self c rest)) (by decide)
    simp [tryCapture, listStartsWith, Ne.symm hc]

theorem scan_mid {d2 : List Char} (h : auxScan ('n' :: d2) = none) :
    ∀ d1 : List Char, (∀ c ∈ d1, c.isDigit = true) → auxScan (d1 ++ 'n' :: d2) = none := by
  intro d1
  induction d1 with
  | nil => intro _; simpa using h
  | cons c rest ih =>
    intro hd
    have hrest : auxScan (rest ++ 'n' :: d2) = none :=
      ih (fun x hx => hd x (List.mem_cons_of_mem c hx))
    rw [List.cons_append, auxScan_cons_none hrest]
    exact tryCapture_not_n (digit_ne_of (hd c (List.mem_cons_self c rest)) (by decide))

theorem spanDigits_split {d1 : List Char} (hd1 : ∀ c ∈ d1, c.isDigit = true)
    {r : List Char} (hr : ∀ c, r.head? = some c → c.isDigit = false) :
    spanDigits (d1 ++ r) = (d1, r) := by
  induction d1 with
  | nil =>
    cases r with
    | nil => rfl
    | cons c rest => simp [spanDigits, hr c rfl]
  | cons c rest ih =>
    have := ih (fun x hx => hd1 x (List.mem_cons_of_mem c hx))
    simp [spanDigits, hd1 c (List.mem_cons_self c rest), this]

theorem lastIsDigit_all {l : List Char} (h : l ≠ []) (hd : ∀ c ∈ l, c.isDigit = true) :
    lastIsDigit l = true := by
  induction l with
  | nil => exact absurd rfl h
  | cons c rest ih =>
    cases rest with
    | nil => simpa [lastIsDigit, List.getLast?] using hd c (List.mem_cons_self c [])
    | cons x xs =>
      have := ih (by simp) (fun y hy => hd y (List.mem_cons_of_mem c hy))
      simpa [lastIsDigit, List.getLast?_cons_cons] using this

theorem lastIsDigit_cons {c : Char} {l : List Char} (h : l ≠ []) (hl : lastIsDigit l = true) :
    lastIsDigit (c :: l) = true := by
  cases l with
  | nil => exact absurd rfl h
  | cons x xs => simpa [lastIsDigit, List.getLast?_cons_cons] using hl

theorem getController_canonical {d1 d2 : List Char} (h1 : d1 ≠ []) (h2 : d2 ≠ [])
    (hd1 : ∀ c ∈ d1, c.isDigit = true) (hd2 : ∀ c ∈ d2, c.isDigit = true) :
    getControllerFromNs (canonNsName d1 d2) = Except.ok (canonCtrl d1) := by
  have s0 : auxScan (d1 ++ 'n' :: d2) = none := scan_mid (scan_n_digits h2 hd2) d1 hd1
  have s1 : auxScan ('e' :: (d1 ++ 'n' :: d2)) = none := by
    rw [auxScan_cons_none s0]; exact tryCapture_not_n (by decide)
  have s2 : auxScan ('m' :: 'e' :: (d1 ++ 'n' :: d2)) = none := by
    rw [auxScan_cons_none s1]; exact tryCapture_not_n (by decide)
  have s3 : auxScan ('v' :: 'm' :: 'e' :: (d1 ++ 'n' :: d2)) = none := by
    rw [auxScan_cons_none s2]; exact tryCapture_not_n (by decide)
  have hspan : spanDigits (d1 ++ 'n' :: d2) = (d1, 'n' :: d2) :=
    spanDigits_split hd1 (fun c hc => by cases hc; decide)
  have hlast : lastIsDigit ('n' :: d2) = true :=
    lastIsDigit_cons h2 (lastIsDigit_all h2 hd2)
  show (match auxScan ('n' :: 'v' :: 'm' :: 'e' :: (d1 ++ 'n' :: d2)) with
        | some cap => Except.ok (String.mk cap)
        | none => Except.error _) = _
  rw [auxScan_cons_none s3]
  simp [tryCapture, listStartsWith, hspan, h1, hlast, canonCtrl]

theorem spanDigits_append_self (l : List Char) :
    (spanDigits l).1 ++ (spanDigits l).2 = l := by
  induction l with
  | nil => rfl
  | cons c rest ih =>
    by_cases h : c.isDigit
    · simp [spanDigits, h, ih]
    · simp [spanDigits, h]

theorem spanDigits_fst_digits (l : List Char) :
    ∀ c ∈ (spanDigits l).1, c.isDigit = true := by
  induction l with
  | nil => intro c hc; simp [spanDigits] at hc
  | cons x rest ih =>
    intro c hc
    by_cases h : x.isDigit
    · simp [spanDigits, h] at hc
      rcases hc with hc | hc
      · rwa [hc]
      · exact ih c hc
    · simp [spanDigits, h] at hc

theorem listStartsWith_drop : ∀ p l : List Char, listStartsWith p l = true →
    l = p ++ l.drop p.length := by
  intro p
  induction p with
  | nil => intro l _; simp
  | cons x xs ih =>
    intro l h
    cases l with
    | nil => simp [listStartsWith] at h
    | cons y ys =>
      rw [listStartsWith] at h
      by_cases e : x = y
      · subst e
        rw [if_pos rfl] at h
        have hih := ih ys h
        simp only [List.length_cons, List.drop_succ_cons, List.cons_append]
        exact congrArg (List.cons x) hih
      · simp [e] at h

theorem tryCapture_some_decomp {l cap : List Char} (h : tryCapture l = some cap) :
    ∃ d b e : List Char, l = 'n' :: 'v' :: 'm' :: 'e' :: (d ++ b ++ e) ∧
      d ≠ [] ∧ e ≠ [] ∧ (∀ c ∈ d, c.isDigit = true) ∧ (∀ c ∈ e, c.isDigit = true) := by
  rw [tryCapture] at h
  by_cases hsw : listStartsWith ['n', 'v', 'm', 'e'] l = true
  · have hl : l = 'n' :: 'v' :: 'm' :: 'e' :: l.drop 4 := listStartsWith_drop _ l hsw
    rw [hsw] at h
    simp only [if_true] at h
    rcases hsd : spanDigits (l.drop 4) with ⟨ds, r2⟩
    have hsplit : ds ++ r2 = l.drop 4 := by
      have := spanDigits_append_self (l.drop 4)
      rwa [hsd] at this
    have hdig : ∀ c ∈ ds, c.isDigit = true := by
      have := spanDigits_fst_digits (l.drop 4)
      rwa [hsd] at this
    rw [hsd] at h
    simp only at h
    by_cases h1 : ds = []
    · rw [if_pos h1] at h; exact absurd h (by simp)
    · rw [if_neg h1] at h
      by_cases h2 : r2 = []
      · rw [if_pos h2] at h
        by_cases h3 : 2 ≤ ds.length
        · refine ⟨ds.dropLast, [], [ds.getLast h1], ?_, ?_, ?_, ?_, ?_⟩
          · have hds : ds.dropLast ++ [ds.getLast h1] = ds := List.dropLast_append_getLast h1
            rw [hl]
            have : ds.dropLast ++ [] ++ [ds.getLast h1] = ds := by
              rw [List.append_nil]; exact hds
            rw [this]
            have : ds = l.drop 4 := by rw [← hsplit, h2, List.append_nil]
            rw [this]
          · intro e
            have := congrArg List.length e
            simp [List.length_dropLast] at this
            omega
          · simp
          · exact fun c hc => hdig c (List.dropLast_subset _ hc)
          · intro c hc
            simp at hc
            rw [hc]
            exact hdig _ (List.getLast_mem h1)
        · rw [if_neg h3] at h; exact absurd h (by simp)
      · rw [if_neg h2] at h
        by_cases h4 : lastIsDigit r2 = true
        · refine ⟨ds, r2.dropLast, [r2.getLast h2], ?_, h1, ?_, hdig, ?_⟩
          · have hr2 : r2.dropLast ++ [r2.getLast h2] = r2 := List.dropLast_append_getLast h2
            rw [hl, List.append_assoc, hr2, hsplit]
          · simp
          · intro c hc
            simp at hc
            rw [hc]
            rw [lastIsDigit] at h4
            rwa [List.getLast?_eq_getLast _ h2] at h4
        · rw [if_neg (by simpa using h4)] at h
          exact absurd h (by simp)
  · rw [eq_false_of_ne_true hsw] at h
    simp at h

theorem auxScan_some_suffix {l cap : List Char} (h : auxScan l = some cap) :
    ∃ a t : List Char, l = a ++ t ∧ tryCapture t = some cap := by
  induction l with
  | nil => simp [auxScan] at h
  | cons c rest ih =>
    rw [auxScan] at h
    cases hrec : auxScan rest with
    | some r =>
      rw [hrec] at h
      obtain ⟨a, t, hat, htc⟩ := ih (hrec.trans (by simpa [hrec] using h))
      exact ⟨c :: a, t, by rw [hat, List.cons_append], htc⟩
    | none =>
      rw [hrec] at h
      exact ⟨[], c :: rest, rfl, h⟩

theorem hasPattern_of_scan {s : String} {cap : List Char} (h : auxScan s.data = some cap) :
    HasPattern s := by
  obtain ⟨a, t, hat, htc⟩ := auxScan_some_suffix h
  obtain ⟨d, b, e, ht, hd, he, hdd, hed⟩ := tryCapture_some_decomp htc
  exact ⟨a, d, b, e, by rw [hat, ht]; simp, hd, he, hdd, hed⟩

/-- C8: `getControllerFromNs` returns "nvme2" on "/dev/nvme2n1" and "nvme9"
on "nvme9n1"; on every input that does not contain a controller token
`nvme<digits>` followed eventually by a trailing digit run (the declarative
reading of its regex, `HasPattern`), it fails fatally with the source's
error message instead of returning a value. -/
theorem infer_controller_spec :
    getControllerFromNs "/dev/nvme2n1" = Except.ok "nvme2" ∧
    getControllerFromNs "nvme9n1" = Except.ok "nvme9" ∧
    ∀ s : String, ¬ HasPattern s →
      getControllerFromNs s =
        Except.error ("nvme device file [" ++ s ++ "] does not match expected format") := by
  refine ⟨rfl, rfl, ?_⟩
  intro s hs
  cases hscan : auxScan s.data with
  | some cap => exact absurd (hasPattern_of_scan hscan) hs
  | none => rw [getControllerFromNs, hscan]

/-- Witness for `infer_controller_spec` at the concrete inputs of the claim
and at the empty string, which contains no controller token. -/
theorem infer_controller_spec_witness :
    getControllerFromNs "/dev/nvme2n1" = Except.ok "nvme2" ∧
    getControllerFromNs "nvme9n1" = Except.ok "nvme9" ∧
    getControllerFromNs "" =
      Except.error "nvme device file [] does not match expected format" := by
  have hnp : ¬ HasPattern "" := by
    rintro ⟨a, d, b, e, hdata, hd, he, _, _⟩
    have hlen := congrArg List.length hdata
    simp [List.length_append] at hlen
    omega
  exact ⟨infer_controller_spec.1, infer_controller_spec.2.1,
    infer_controller_spec.2.2 "" hnp⟩

theorem ratTrunc_intCast (n : Int) : ratTrunc ((n : ℚ)) = n := by
  simp [ratTrunc, Rat.num_intCast, Rat.den_intCast]

/-- C7: every field whose queried name mentions "temperature" is converted
uniformly from Kelvin: celsius subtracts 273, fahrenheit applies
(K - 273.15) * 9/5 + 32, and any other scale string (kelvin included)
passes the value through; in particular 296 K gives 23, 73.13 and 296. -/
theorem temperature_conversion (doc : Json) (name label field : String) (kind : MetricKind)
    (h : strContains field "temperature" = true) :
    (makeMetric "celsius" name kind doc field label).value
        = gjsonFloat (evalPath doc [Step.key field]) - 273 ∧
    (makeMetric "fahrenheit" name kind doc field label).value
        = (gjsonFloat (evalPath doc [Step.key field]) - 27315/100) * 9 / 5 + 32 ∧
    (∀ scale : String, scale ≠ "celsius" → scale ≠ "fahrenheit" →
      (makeMetric scale name kind doc field label).value
        = gjsonFloat (evalPath doc [Step.key field])) ∧
    (makeMetric "celsius" name kind (Json.obj [("temperature", Json.num 296)]) "temperature" label).value = 23 ∧
    (makeMetric "fahrenheit" name kind (Json.obj [("temperature", Json.num 296)]) "temperature" label).value = 7313/100 ∧
    (makeMetric "kelvin" name kind (Json.obj [("temperature", Json.num 296)]) "temperature" label).value = 296 := by
  refine ⟨?_, ?_, ?_, ?_, ?_, ?_⟩
  · simp [makeMetric, tempAdjust, h]
  · simp [makeMetric, tempAdjust, h]
  · intro scale hc hf
    simp [makeMetric, tempAdjust, h, hc, hf]
  · rw [makeMetric]
    norm_num [tempAdjust, evalPath, Json.getField, gjsonFloat,
      show strContains "temperature" "temperature" = true from rfl,
      show ("celsius" : String) ≠ "fahrenheit" from by decide]
  · rw [makeMetric]
    norm_num [tempAdjust, evalPath, Json.getField, gjsonFloat,
      show strContains "temperature" "temperature" = true from rfl,
      show ("fahrenheit" : String) ≠ "celsius" from by decide]
  · rw [makeMetric]
    norm_num [tempAdjust, evalPath, Json.getField, gjsonFloat,
      show strContains "temperature" "temperature" = true from rfl,
      show ("kelvin" : String) ≠ "celsius" from by decide,
      show ("kelvin" : String) ≠ "fahrenheit" from by decide]

/-- Witness for `temperature_conversion` at the primary temperature field of
a concrete 296 K document. -/
theorem temperature_conversion_witness :
    (makeMetric "celsius" "nvme_temperature" MetricKind.gauge
        (Json.obj [("temperature", Json.num 296)]) "temperature" "/dev/nvme0n1").value = 23 ∧
    (makeMetric "fahrenheit" "nvme_temperature" MetricKind.gauge
        (Json.obj [("temperature", Json.num 296)]) "temperature" "/dev/nvme0n1").value = 7313/100 ∧
    (makeMetric "kelvin" "nvme_temperature" MetricKind.gauge
        (Json.obj [("temperature", Json.num 296)]) "temperature" "/dev/nvme0n1").value = 296 := by
  have h := temperature_conversion (Json.obj [("temperature", Json.num 296)])
    "nvme_temperature" "/dev/nvme0n1" "temperature" MetricKind.gauge rfl
  exact ⟨h.2.2.2.1, h.2.2.2.2.1, h.2.2.2.2.2⟩

/-- C3 counterexample: with two records sharing controller nvme0, the
id-ctrl loop performs one lookup per record — the invocation trace has two
entries, not the single deduplicated entry the claim requires. -/
theorem capacity_lookup_counterexample :
    (enrichDeviceList (fun _ => none) twoSharedRecords).2 ≠
      dedupFirst (twoSharedRecords.map nvmeNamespace.nsController) ∧
    (enrichDeviceList (fun _ => none) twoSharedRecords).2 = ["nvme0", "nvme0"] ∧
    dedupFirst (twoSharedRecords.map nvmeNamespace.nsController) = ["nvme0"] := by
  refine ⟨?_, rfl, rfl⟩
  intro h
  simp [twoSharedRecords, enrichDeviceList, dedupFirst] at h

/-- C3 amended: the enrichment loop performs exactly one capacity lookup per
record, in record order (not deduplicated); every record receives the
capacity of its own controller, so records sharing a controller still end
up with equal `nsTotalCapacity`. -/
theorem capacity_enrichment_per_record (fetch : String → Option Json) (l : List nvmeNamespace) :
    (enrichDeviceList fetch l).2 = l.map nvmeNamespace.nsController ∧
    (enrichDeviceList fetch l).1 =
      l.map (fun d => { d with nsTotalCapacity := capOf fetch d.nsController }) ∧
    ∀ d1 ∈ (enrichDeviceList fetch l).1, ∀ d2 ∈ (enrichDeviceList fetch l).1,
      d1.nsController = d2.nsController → d1.nsTotalCapacity = d2.nsTotalCapacity := by
  have hmain : (enrichDeviceList fetch l).2 = l.map nvmeNamespace.nsController ∧
      (enrichDeviceList fetch l).1 =
        l.map (fun d => { d with nsTotalCapacity := capOf fetch d.nsController }) := by
    induction l with
    | nil => exact ⟨rfl, rfl⟩
    | cons d rest ih => simp [enrichDeviceList, ih.1, ih.2]
  refine ⟨hmain.1, hmain.2, ?_⟩
  have hcap : ∀ d ∈ (enrichDeviceList fetch l).1,
      d.nsTotalCapacity = capOf fetch d.nsController := by
    intro d hd
    rw [hmain.2] at hd
    obtain ⟨x, _, hx⟩ := List.mem_map.mp hd
    rw [← hx]
  intro d1 h1 d2 h2 hctrl
  rw [hcap d1 h1, hcap d2 h2, hctrl]

/-- Witness for `capacity_enrichment_per_record`: two records sharing nvme0
with a fetch returning tnvmcap 77 produce a two-entry invocation trace and
both records carry capacity 77. -/
theorem capacity_enrichment_witness :
    (enrichDeviceList (fun _ => some (Json.obj [("tnvmcap", Json.num 77)])) twoSharedRecords).2
      = ["nvme0", "nvme0"] ∧
    ∀ d1 ∈ (enrichDeviceList (fun _ => some (Json.obj [("tnvmcap", Json.num 77)])) twoSharedRecords).1,
      ∀ d2 ∈ (enrichDeviceList (fun _ => some (Json.obj [("tnvmcap", Json.num 77)])) twoSharedRecords).1,
        d1.nsController = d2.nsController → d1.nsTotalCapacity = d2.nsTotalCapacity := by
  have h := capacity_enrichment_per_record
    (fun _ => some (Json.obj [("tnvmcap", Json.num 77)])) twoSharedRecords
  exact ⟨h.1, h.2.2⟩

/-- C10 counterexample: in a valid but empty health-log document the
temperature leaf is absent, yet under the default celsius scale its sample
value is -273, not the claimed 0 (the zero of the JSON query is
unit-converted before emission). -/
theorem missing_leaf_counterexample :
    fieldExists (Json.obj []) "temperature" = false ∧
    findSample (extractSamples "celsius" (Json.obj []) "/dev/nvme0n1") "nvme_temperature" =
      some (makeMetric "celsius" "nvme_temperature" MetricKind.gauge
        (Json.obj []) "temperature" "/dev/nvme0n1") ∧
    (makeMetric "celsius" "nvme_temperature" MetricKind.gauge
      (Json.obj []) "temperature" "/dev/nvme0n1").value = -273 ∧
    (-273 : ℚ) ≠ 0 := by
  refine ⟨rfl, rfl, ?_, by norm_num⟩
  rw [makeMetric]
  norm_num [tempAdjust, evalPath, Json.getField, gjsonFloat,
    show strContains "temperature" "temperature" = true from rfl,
    show ("celsius" : String) ≠ "fahrenheit" from by decide]

/-- C10 amended: raw health-log text that is not valid JSON is fatal and no
samples are emitted; within a valid document a queried leaf field that is
absent yields the JSON-query zero, which is emitted as 0 for every
non-temperature field, while temperature-named fields first pass that zero
through the unit conversion (so under celsius the emitted value is -273,
not 0). -/
theorem error_asymmetry (scale path : String) :
    extract scale none path =
      Except.error ("nvmeSmartLog json is not valid for device: " ++ path) ∧
    ∀ (doc : Json) (name field label : String) (kind : MetricKind),
      doc.getField field = none →
        (strContains field "temperature" = false →
          (makeMetric scale name kind doc field label).value = 0) ∧
        (strContains field "temperature" = true →
          (makeMetric scale name kind doc field label).value = tempAdjust scale 0) := by
  refine ⟨rfl, ?_⟩
  intro doc name field label kind hmiss
  constructor
  · intro hnt
    simp [makeMetric, evalPath, hmiss, gjsonFloat, hnt]
  · intro ht
    simp [makeMetric, evalPath, hmiss, gjsonFloat, ht]

/-- Witness for `error_asymmetry`: invalid input is fatal, and the missing
non-temperature leaf `media_errors` of an empty document yields value 0. -/
theorem error_asymmetry_witness :
    extract "kelvin" none "/dev/nvme0n1" =
      Except.error "nvmeSmartLog json is not valid for device: /dev/nvme0n1" ∧
    (makeMetric "kelvin" "nvme_media_errors" MetricKind.counter
      (Json.obj []) "media_errors" "/dev/nvme0n1").value = 0 := by
  have h := error_asymmetry "kelvin" "/dev/nvme0n1"
  exact ⟨h.1, (h.2 (Json.obj []) "nvme_media_errors" "media_errors" "/dev/nvme0n1"
    MetricKind.counter rfl).1 rfl⟩

theorem startsWith_append : ∀ p q : List Char, listStartsWith p (p ++ q) = true := by
  intro p q
  induction p with
  | nil => rfl
  | cons x xs ih => simp [listStartsWith, ih]

theorem string_append_ne {p c : String} (t : String)
    (h : listStartsWith p.data c.data = false) : p ++ t ≠ c := by
  intro e
  have hdata : p.data ++ t.data = c.data := by rw [← e]; rfl
  have h2 := startsWith_append p.data t.data
  rw [hdata, h] at h2
  exact Bool.false_ne_true h2

theorem sensorLoop_names (scale : String) (doc : Json) (path : String) :
    ∀ (fuel i : Nat), ∀ s ∈ sensorLoop scale doc path fuel i,
      ∃ t : String, s.metricName = "nvme_temperature_sensor" ++ t := by
  intro fuel
  induction fuel with
  | zero => intro i s hs; simp [sensorLoop] at hs
  | succ n ih =>
    intro i s hs
    rw [sensorLoop] at hs
    by_cases h : fieldExists doc (sensorFieldName i) = true
    · rw [if_pos h] at hs
      rcases List.mem_cons.mp hs with hs | hs
      · exact ⟨toString i, by rw [hs]; rfl⟩
      · exact ih (i + 1) s hs
    · rw [if_neg h] at hs
      simp at hs

theorem findSample_skip {l1 l2 : List HealthSample} {n : String}
    (h : ∀ s ∈ l1, (s.metricName == n) = false) :
    findSample (l1 ++ l2) n = findSample l2 n := by
  induction l1 with
  | nil => rfl
  | cons x xs ih =>
    have hx := h x (List.mem_cons_self x xs)
    have step : findSample ((x :: xs) ++ l2) n = findSample (xs ++ l2) n := by
      simp [findSample, List.find?, hx]
    rw [step]
    exact ih (fun s hs => h s (List.mem_cons_of_mem x hs))

theorem sensorLoop_no_name {scale : String} {doc : Json} {path : String} {n : String}
    (hn : listStartsWith "nvme_temperature_sensor".data n.data = false) :
    ∀ fuel i, ∀ s ∈ sensorLoop scale doc path fuel i, (s.metricName == n) = false := by
  intro fuel i s hs
  obtain ⟨t, ht⟩ := sensorLoop_names scale doc path fuel i s hs
  rw [ht]
  exact beq_eq_false_iff_ne.mpr (string_append_ne t hn)

/-- C4 counterexample: in a document carrying `thm_temp2_total_time` 5, the
thm_temp1 output slot (metric nvme_thm_temp1_trans_time) reports 0, not 5 —
so `thm_temp2_total_time` is not read into that slot; the source queries the
nonexistent field `thm_temp3_total_time` there instead. -/
theorem thermal_time_counterexample :
    gjsonFloat ((Json.obj [("thm_temp2_total_time", Json.num 5)]).getField "thm_temp2_total_time") = 5 ∧
    findSample (extractSamples "kelvin" (Json.obj [("thm_temp2_total_time", Json.num 5)]) "/dev/nvme0n1")
        "nvme_thm_temp1_trans_time" =
      some (makeMetric "kelvin" "nvme_thm_temp1_trans_time" MetricKind.counter
        (Json.obj [("thm_temp2_total_time", Json.num 5)]) "thm_temp3_total_time" "/dev/nvme0n1") ∧
    (makeMetric "kelvin" "nvme_thm_temp1_trans_time" MetricKind.counter
      (Json.obj [("thm_temp2_total_time", Json.num 5)]) "thm_temp3_total_time" "/dev/nvme0n1").value = 0 ∧
    (0 : ℚ) ≠ 5 := by
  refine ⟨rfl, rfl, ?_, by norm_num⟩
  rw [makeMetric]
  norm_num [evalPath, Json.getField, gjsonFloat, List.lookup,
    show strContains "thm_temp3_total_time" "temperature" = false from rfl,
    show ("thm_temp3_total_time" == "thm_temp2_total_time") = false from rfl]

theorem makeMetric_name (scale name : String) (kind : MetricKind) (doc : Json)
    (field label : String) : (makeMetric scale name kind doc field label).metricName = name := rfl

theorem evalPath_key (j : Json) (k : String) : evalPath j [Step.key k] = j.getField k := by
  cases h : j.getField k <;> simp [evalPath, h]

theorem extract_head_skip (scale path : String) (doc : Json) {n : String}
    (hn : listStartsWith "nvme_temperature_sensor".data n.data = false)
    (h7 : ("nvme_critical_warning" == n) = false ∧
          ("nvme_available_spare_critical" == n) = false ∧
          ("nvme_temp_threshold_exceeded" == n) = false ∧
          ("nvme_reliability_degraded" == n) = false ∧
          ("nvme_readonly" == n) = false ∧
          ("nvme_vmbu_failed" == n) = false ∧
          ("nvme_pmr_ro" == n) = false) :
    findSample (extractSamples scale doc path) n = findSample (tailSamples scale doc path) n := by
  rw [extractSamples]
  by_cases hk : isJsonKind (doc.getField "critical_warning") = true
  · rw [if_pos hk]
    apply findSample_skip
    intro s hs
    rcases List.mem_append.mp hs with hs | hs
    · simp only [cwObjectSamples, List.mem_cons, List.not_mem_nil, or_false] at hs
      rcases hs with h | h | h | h | h | h | h <;>
        (rw [h, makeMetric_name]) <;>
        first
          | exact h7.1
          | exact h7.2.1
          | exact h7.2.2.1
          | exact h7.2.2.2.1
          | exact h7.2.2.2.2.1
          | exact h7.2.2.2.2.2.1
          | exact h7.2.2.2.2.2.2
    · exact sensorLoop_no_name hn 8 1 s hs
  · rw [if_neg hk]
    apply findSample_skip
    intro s hs
    simp only [List.mem_singleton] at hs
    rw [hs, makeMetric_name]
    exact h7.1

/-- C4 amended: the thm_temp2 output slot (metric nvme_thm_temp2_trans_time)
does read the JSON field `thm_temp1_total_time`, but the thm_temp1 output
slot (metric nvme_thm_temp1_trans_time) reads the nonexistent field
`thm_temp3_total_time` rather than `thm_temp2_total_time`: the two
thermal-time field names are not exchanged with each other, and
`thm_temp2_total_time` is never read at all. -/
theorem thermal_time_slots (scale path : String) (doc : Json) :
    findSample (extractSamples scale doc path) "nvme_thm_temp2_trans_time" =
      some (makeMetric scale "nvme_thm_temp2_trans_time" MetricKind.counter doc "thm_temp1_total_time" path) ∧
    findSample (extractSamples scale doc path) "nvme_thm_temp1_trans_time" =
      some (makeMetric scale "nvme_thm_temp1_trans_time" MetricKind.counter doc "thm_temp3_total_time" path) ∧
    (makeMetric scale "nvme_thm_temp2_trans_time" MetricKind.counter doc "thm_temp1_total_time" path).value
      = gjsonFloat (doc.getField "thm_temp1_total_time") ∧
    (makeMetric scale "nvme_thm_temp1_trans_time" MetricKind.counter doc "thm_temp3_total_time" path).value
      = gjsonFloat (doc.getField "thm_temp3_total_time") := by
  refine ⟨?_, ?_, ?_, ?_⟩
  · rw [extract_head_skip scale path doc (by decide) (by decide)]
    simp [tailSamples, findSample, List.find?, makeMetric_name]
  · rw [extract_head_skip scale path doc (by decide) (by decide)]
    simp [tailSamples, findSample, List.find?, makeMetric_name]
  · simp [makeMetric, evalPath_key,
      show strContains "thm_temp1_total_time" "temperature" = false from rfl]
  · simp [makeMetric, evalPath_key,
      show strContains "thm_temp3_total_time" "temperature" = false from rfl]

theorem sensorLoop_spec (scale : String) (doc : Json) (path : String) :
    ∀ fuel i : Nat, ∃ k, k ≤ fuel ∧
      sensorLoop scale doc path fuel i =
        (List.range' i k).map (fun j =>
          makeMetric scale (sensorMetricName j) MetricKind.gauge doc (sensorFieldName j) path) ∧
      (∀ j, i ≤ j → j < i + k → fieldExists doc (sensorFieldName j) = true) ∧
      (k < fuel → fieldExists doc (sensorFieldName (i + k)) = false) := by
  intro fuel
  induction fuel with
  | zero =>
    intro i
    exact ⟨0, le_rfl, by simp [sensorLoop], fun j h1 h2 => absurd h2 (by omega), fun h => absurd h (by omega)⟩
  | succ n ih =>
    intro i
    by_cases h : fieldExists doc (sensorFieldName i) = true
    · obtain ⟨k, hk, heq, hall, hend⟩ := ih (i + 1)
      refine ⟨k + 1, by omega, ?_, ?_, ?_⟩
      · rw [sensorLoop, if_pos h, heq, List.range'_succ, List.map_cons]
      · intro j hj1 hj2
        rcases Nat.eq_or_lt_of_le hj1 with he | hlt
        · rwa [← he]
        · exact hall j (by omega) (by omega)
      · intro hlt
        have := hend (by omega)
        have harith : i + 1 + k = i + (k + 1) := by omega
        rwa [harith] at this
    · refine ⟨0, by omega, ?_, fun j h1 h2 => absurd h2 (by omega), fun _ => ?_⟩
      · rw [sensorLoop, if_neg h]
        simp
      · simpa using eq_false_of_ne_true h

theorem cwObjectSamples_sensor_free (scale : String) (cw : Json) (path : String) :
    ∀ s ∈ cwObjectSamples scale cw path, isSensorSample s = false := by
  intro s hs
  simp only [cwObjectSamples, List.mem_cons, List.not_mem_nil, or_false] at hs
  rcases hs with h | h | h | h | h | h | h <;> rw [h] <;>
    (show isSensorSample (makeMetric _ _ _ _ _ _) = false) <;>
    simp only [isSensorSample, makeMetric_name] <;> decide

theorem tailSamples_sensor_free (scale : String) (doc : Json) (path : String) :
    ∀ s ∈ tailSamples scale doc path, isSensorSample s = false := by
  intro s hs
  simp only [tailSamples, List.mem_cons, List.not_mem_nil, or_false] at hs
  rcases hs with h | h | h | h | h | h | h | h | h | h | h
    | h | h | h | h | h | h | h | h | h | h <;> rw [h] <;>
    (show isSensorSample (makeMetric _ _ _ _ _ _) = false) <;>
    simp only [isSensorSample, makeMetric_name] <;> decide

theorem sensorLoop_sensor_true (scale : String) (doc : Json) (path : String) :
    ∀ fuel i, ∀ s ∈ sensorLoop scale doc path fuel i, isSensorSample s = true := by
  intro fuel i s hs
  obtain ⟨t, ht⟩ := sensorLoop_names scale doc path fuel i s hs
  rw [isSensorSample, ht]
  have : ("nvme_temperature_sensor" ++ t).data = "nvme_temperature_sensor".data ++ t.data := rfl
  rw [this]
  exact startsWith_append _ _

/-- C5: on a new-generation health log (nested critical_warning object),
temperature-sensor samples are emitted exactly for the contiguous indices
1..k, where k ≤ 8 is largest such that temperature_sensor_1..k all exist;
the first missing index ends the scan. -/
theorem sensor_scan_contiguous (scale path : String) (doc : Json)
    (hcw : isJsonKind (doc.getField "critical_warning") = true) :
    ∃ k, k ≤ 8 ∧
      (extractSamples scale doc path).filter isSensorSample =
        (List.range' 1 k).map (fun j =>
          makeMetric scale (sensorMetricName j) MetricKind.gauge doc (sensorFieldName j) path) ∧
      (∀ j, 1 ≤ j → j ≤ k → fieldExists doc (sensorFieldName j) = true) ∧
      (k < 8 → fieldExists doc (sensorFieldName (k + 1)) = false) := by
  obtain ⟨k, hk8, heq, hall, hend⟩ := sensorLoop_spec scale doc path 8 1
  refine ⟨k, hk8, ?_, fun j h1 h2 => hall j h1 (by omega),
    fun hlt => by have := hend hlt; rwa [Nat.add_comm] at this⟩
  have hcwnil : List.filter isSensorSample
      (cwObjectSamples scale ((doc.getField "critical_warning").getD Json.null) path) = [] :=
    List.filter_eq_nil_iff.mpr
      (fun s hs => ne_true_of_eq_false (cwObjectSamples_sensor_free scale _ path s hs))
  have htailnil : List.filter isSensorSample (tailSamples scale doc path) = [] :=
    List.filter_eq_nil_iff.mpr
      (fun s hs => ne_true_of_eq_false (tailSamples_sensor_free scale doc path s hs))
  have hsens : List.filter isSensorSample (sensorLoop scale doc path 8 1) =
      sensorLoop scale doc path 8 1 :=
    List.filter_eq_self.mpr (fun s hs => sensorLoop_sensor_true scale doc path 8 1 s hs)
  rw [extractSamples, if_pos hcw, List.filter_append, List.filter_append,
    hcwnil, htailnil, hsens, heq]
  simp

/-- Witness for `sensor_scan_contiguous`: sensors 1-3 present, 4 absent,
5 present gives exactly the three samples 1..3. -/
theorem sensor_scan_contiguous_witness :
    (extractSamples "kelvin" c5doc "/dev/nvme0n1").filter isSensorSample =
      [ makeMetric "kelvin" (sensorMetricName 1) MetricKind.gauge c5doc (sensorFieldName 1) "/dev/nvme0n1"
      , makeMetric "kelvin" (sensorMetricName 2) MetricKind.gauge c5doc (sensorFieldName 2) "/dev/nvme0n1"
      , makeMetric "kelvin" (sensorMetricName 3) MetricKind.gauge c5doc (sensorFieldName 3) "/dev/nvme0n1" ] := by
  obtain ⟨k, hk, heq, hall, hend⟩ :=
    sensor_scan_contiguous "kelvin" "/dev/nvme0n1" c5doc rfl
  have hk3 : k = 3 := by
    rcases Nat.lt_or_ge k 4 with h4 | h4
    · rcases Nat.lt_or_ge k 3 with h3 | h3
      · exfalso
        have hf := hend (by omega)
        interval_cases k <;> exact absurd hf (by decide)
      · omega
    · exact absurd (hall 4 (by omega) (by omega)) (by decide)
  rw [heq, hk3]
  rfl

theorem cwObjectSamples_family (scale : String) (cw : Json) (path : String) :
    ∀ s ∈ cwObjectSamples scale cw path, isCWFamily s = true := by
  intro s hs
  simp only [cwObjectSamples, List.mem_cons, List.not_mem_nil, or_false] at hs
  rcases hs with h | h | h | h | h | h | h <;> rw [h] <;>
    (show isCWFamily (makeMetric _ _ _ _ _ _) = true) <;>
    simp only [isCWFamily, makeMetric_name] <;> decide

theorem tailSamples_family_free (scale : String) (doc : Json) (path : String) :
    ∀ s ∈ tailSamples scale doc path, isCWFamily s = false := by
  intro s hs
  simp only [tailSamples, List.mem_cons, List.not_mem_nil, or_false] at hs
  rcases hs with h | h | h | h | h | h | h | h | h | h | h
    | h | h | h | h | h | h | h | h | h | h <;> rw [h] <;>
    (show isCWFamily (makeMetric _ _ _ _ _ _) = false) <;>
    simp only [isCWFamily, makeMetric_name] <;> decide

theorem sensorLoop_family_free (scale : String) (doc : Json) (path : String) :
    ∀ fuel i, ∀ s ∈ sensorLoop scale doc path fuel i, isCWFamily s = false := by
  intro fuel i s hs
  obtain ⟨t, ht⟩ := sensorLoop_names scale doc path fuel i s hs
  have b1 : (("nvme_temperature_sensor" ++ t) == "nvme_critical_warning") = false :=
    beq_eq_false_iff_ne.mpr (string_append_ne t (by decide))
  have b2 : (("nvme_temperature_sensor" ++ t) == "nvme_available_spare_critical") = false :=
    beq_eq_false_iff_ne.mpr (string_append_ne t (by decide))
  have b3 : (("nvme_temperature_sensor" ++ t) == "nvme_temp_threshold_exceeded") = false :=
    beq_eq_false_iff_ne.mpr (string_append_ne t (by decide))
  have b4 : (("nvme_temperature_sensor" ++ t) == "nvme_reliability_degraded") = false :=
    beq_eq_false_iff_ne.mpr (string_append_ne t (by decide))
  have b5 : (("nvme_temperature_sensor" ++ t) == "nvme_readonly") = false :=
    beq_eq_false_iff_ne.mpr (string_append_ne t (by decide))
  have b6 : (("nvme_temperature_sensor" ++ t) == "nvme_vmbu_failed") = false :=
    beq_eq_false_iff_ne.mpr (string_append_ne t (by decide))
  have b7 : (("nvme_temperature_sensor" ++ t) == "nvme_pmr_ro") = false :=
    beq_eq_false_iff_ne.mpr (string_append_ne t (by decide))
  simp only [isCWFamily, ht, b1, b2, b3, b4, b5, b6, b7, Bool.or_false]

/-- C6: extraction dispatches on the JSON kind of critical_warning.  For a
nested object exactly the seven gauge sub-field samples (value,
available_spare, temp_threshold, reliability_degraded, ro, vmbu_failed,
pmr_ro) of the critical-warning family are emitted, read from within the
nested object; for a scalar exactly one gauge sample named
nvme_critical_warning is emitted, with no sub-field and no
temperature-sensor samples. -/
theorem critical_warning_dispatch (scale path : String) (doc : Json) :
    (isJsonKind (doc.getField "critical_warning") = true →
      (extractSamples scale doc path).filter isCWFamily =
        [ makeMetric scale "nvme_critical_warning" MetricKind.gauge
            ((doc.getField "critical_warning").getD Json.null) "value" path
        , makeMetric scale "nvme_available_spare_critical" MetricKind.gauge
            ((doc.getField "critical_warning").getD Json.null) "available_spare" path
        , makeMetric scale "nvme_temp_threshold_exceeded" MetricKind.gauge
            ((doc.getField "critical_warning").getD Json.null) "temp_threshold" path
        , makeMetric scale "nvme_reliability_degraded" MetricKind.gauge
            ((doc.getField "critical_warning").getD Json.null) "reliability_degraded" path
        , makeMetric scale "nvme_readonly" MetricKind.gauge
            ((doc.getField "critical_warning").getD Json.null) "ro" path
        , makeMetric scale "nvme_vmbu_failed" MetricKind.gauge
            ((doc.getField "critical_warning").getD Json.null) "vmbu_failed" path
        , makeMetric scale "nvme_pmr_ro" MetricKind.gauge
            ((doc.getField "critical_warning").getD Json.null) "pmr_ro" path ]) ∧
    (isJsonKind (doc.getField "critical_warning") = false →
      (extractSamples scale doc path).filter isCWFamily =
        [makeMetric scale "nvme_critical_warning" MetricKind.gauge doc "critical_warning" path] ∧
      (extractSamples scale doc path).filter isSensorSample = []) := by
  constructor
  · intro h
    have hcw : List.filter isCWFamily
        (cwObjectSamples scale ((doc.getField "critical_warning").getD Json.null) path) =
        cwObjectSamples scale ((doc.getField "critical_warning").getD Json.null) path :=
      List.filter_eq_self.mpr (fun s hs => cwObjectSamples_family scale _ path s hs)
    have hsens : List.filter isCWFamily (sensorLoop scale doc path 8 1) = [] :=
      List.filter_eq_nil_iff.mpr
        (fun s hs => ne_true_of_eq_false (sensorLoop_family_free scale doc path 8 1 s hs))
    have htail : List.filter isCWFamily (tailSamples scale doc path) = [] :=
      List.filter_eq_nil_iff.mpr
        (fun s hs => ne_true_of_eq_false (tailSamples_family_free scale doc path s hs))
    rw [extractSamples, if_pos h, List.filter_append, List.filter_append,
      hcw, hsens, htail, List.append_nil, List.append_nil]
    rfl
  · intro h
    have htail : List.filter isCWFamily (tailSamples scale doc path) = [] :=
      List.filter_eq_nil_iff.mpr
        (fun s hs => ne_true_of_eq_false (tailSamples_family_free scale doc path s hs))
    have htails : List.filter isSensorSample (tailSamples scale doc path) = [] :=
      List.filter_eq_nil_iff.mpr
        (fun s hs => ne_true_of_eq_false (tailSamples_sensor_free scale doc path s hs))
    constructor
    · rw [extractSamples, if_neg (by rw [h]; exact Bool.false_ne_true), List.filter_append, htail,
        List.append_nil]
      simp [List.filter, isCWFamily, makeMetric_name]
    · rw [extractSamples, if_neg (by rw [h]; exact Bool.false_ne_true), List.filter_append, htails,
        List.append_nil]
      simp [List.filter, isSensorSample, makeMetric_name, listStartsWith]

/-- Witness for `critical_warning_dispatch`: a nested document yields the
seven family samples, a scalar document yields the single legacy sample and
no sensor samples. -/
theorem critical_warning_dispatch_witness :
    (extractSamples "kelvin" c5doc "/dev/nvme0n1").filter isCWFamily =
      [ makeMetric "kelvin" "nvme_critical_warning" MetricKind.gauge
          ((c5doc.getField "critical_warning").getD Json.null) "value" "/dev/nvme0n1"
      , makeMetric "kelvin" "nvme_available_spare_critical" MetricKind.gauge
          ((c5doc.getField "critical_warning").getD Json.null) "available_spare" "/dev/nvme0n1"
      , makeMetric "kelvin" "nvme_temp_threshold_exceeded" MetricKind.gauge
          ((c5doc.getField "critical_warning").getD Json.null) "temp_threshold" "/dev/nvme0n1"
      , makeMetric "kelvin" "nvme_reliability_degraded" MetricKind.gauge
          ((c5doc.getField "critical_warning").getD Json.null) "reliability_degraded" "/dev/nvme0n1"
      , makeMetric "kelvin" "nvme_readonly" MetricKind.gauge
          ((c5doc.getField "critical_warning").getD Json.null) "ro" "/dev/nvme0n1"
      , makeMetric "kelvin" "nvme_vmbu_failed" MetricKind.gauge
          ((c5doc.getField "critical_warning").getD Json.null) "vmbu_failed" "/dev/nvme0n1"
      , makeMetric "kelvin" "nvme_pmr_ro" MetricKind.gauge
          ((c5doc.getField "critical_warning").getD Json.null) "pmr_ro" "/dev/nvme0n1" ] ∧
    (extractSamples "kelvin" (Json.obj [("critical_warning", Json.num 1)]) "/dev/nvme1n1").filter
        isCWFamily =
      [makeMetric "kelvin" "nvme_critical_warning" MetricKind.gauge
        (Json.obj [("critical_warning", Json.num 1)]) "critical_warning" "/dev/nvme1n1"] ∧
    (extractSamples "kelvin" (Json.obj [("critical_warning", Json.num 1)]) "/dev/nvme1n1").filter
        isSensorSample = [] := by
  have h1 := (critical_warning_dispatch "kelvin" "/dev/nvme0n1" c5doc).1 rfl
  have h2 := (critical_warning_dispatch "kelvin" "/dev/nvme1n1"
    (Json.obj [("critical_warning", Json.num 1)])).2 rfl
  exact ⟨h1, h2.1, h2.2⟩

theorem filterMap_map_none {α β γ : Type} (f : α → β) (g : β → Option γ)
    (h : ∀ x, g (f x) = none) : ∀ l : List α, (l.map f).filterMap g = [] := by
  intro l
  induction l with
  | nil => rfl
  | cons a as ih => simp [List.map_cons, List.filterMap_cons, h a, ih]

theorem filterMap_map_some {α β γ : Type} (f : α → β) (g : β → Option γ) (g2 : α → γ)
    (h : ∀ x, g (f x) = some (g2 x)) : ∀ l : List α, (l.map f).filterMap g = l.map g2 := by
  intro l
  induction l with
  | nil => rfl
  | cons a as ih => simp [List.map_cons, List.filterMap_cons, h a, ih]

theorem parseBareNamespace_nsObj (name ctrl : String) (u l p s : Int)
    (h : getControllerFromNs name = Except.ok ctrl) :
    parseBareNamespace (nsObj name u l p s) = Except.ok
      { devicePath := "/dev/" ++ name, nsController := ctrl
        nsPhysicalSize := p, nsTotalCapacity := 0
        nsMaximumLBA := l, nsUsedBytes := u, nsSectorSize := s } := by
  have step : parseBareNamespace (nsObj name u l p s) =
      Except.bind (getControllerFromNs name) (fun controller => Except.ok
        { devicePath := "/dev/" ++ name
          nsController := controller
          nsPhysicalSize := ratTrunc ((p : ℚ)), nsTotalCapacity := 0
          nsMaximumLBA := ratTrunc ((l : ℚ)), nsUsedBytes := ratTrunc ((u : ℚ))
          nsSectorSize := ratTrunc ((s : ℚ)) }) := rfl
  rw [step, h]
  simp [Except.bind, ratTrunc_intCast]

theorem parseControllerEntry_one (ctrl name : String) (u l p s : Int) (h : ¬ ctrl = "") :
    parseControllerEntry (Json.obj
      [("Controller", Json.str ctrl), ("Namespaces", Json.arr [nsObj name u l p s])]) =
      Except.ok [ { devicePath := "/dev/" ++ name, nsController := ctrl
                    nsPhysicalSize := p, nsTotalCapacity := 0
                    nsMaximumLBA := l, nsUsedBytes := u, nsSectorSize := s } ] := by
  have step : parseControllerEntry (Json.obj
      [("Controller", Json.str ctrl), ("Namespaces", Json.arr [nsObj name u l p s])]) =
      if ctrl = "" then Except.error "No controller found"
      else Except.ok
        [ { devicePath := "/dev/" ++ name, nsController := ctrl
            nsPhysicalSize := ratTrunc ((p : ℚ)), nsTotalCapacity := 0
            nsMaximumLBA := ratTrunc ((l : ℚ)), nsUsedBytes := ratTrunc ((u : ℚ))
            nsSectorSize := ratTrunc ((s : ℚ)) } ] := rfl
  rw [step, if_neg h]
  simp [ratTrunc_intCast]

theorem parseLegacyPath_entry (x : LegacyEntryData)
    (h : getControllerFromNs x.path = Except.ok x.controller) :
    parseLegacyPath (Json.str x.path) = Except.ok (legacyRecord x) := by
  have step : parseLegacyPath (Json.str x.path) =
      Except.bind (getControllerFromNs x.path) (fun controller => Except.ok
        { devicePath := x.path, nsController := controller, nsPhysicalSize := -1
          nsTotalCapacity := 0, nsMaximumLBA := -1, nsUsedBytes := -1
          nsSectorSize := -1 }) := rfl
  rw [step, h]
  simp [Except.bind, legacyRecord]

theorem branchAGuard_legacy (l : List LegacyEntryData) :
    branchAGuard (legacyDoc (l.map legacyEntry)) = [] := by
  have step : branchAGuard (legacyDoc (l.map legacyEntry)) =
      (l.map legacyEntry).filterMap
        (fun e => evalPath e [Step.key "Subsystems", Step.hash, Step.key "Namespaces"]) := rfl
  rw [step]
  exact filterMap_map_none _ _ (fun x => rfl) l

theorem branchBGuard_legacy (l : List LegacyEntryData) :
    branchBGuard (legacyDoc (l.map legacyEntry)) = [] := by
  have step : branchBGuard (legacyDoc (l.map legacyEntry)) =
      (l.map legacyEntry).filterMap
        (fun e => evalPath e [Step.key "Subsystems", Step.hash, Step.key "Controllers"]) := rfl
  rw [step]
  exact filterMap_map_none _ _ (fun x => rfl) l

theorem branchCGuard_legacy (l : List LegacyEntryData) :
    branchCGuard (legacyDoc (l.map legacyEntry)) = l.map (fun x => Json.str x.path) := by
  have step : branchCGuard (legacyDoc (l.map legacyEntry)) =
      (l.map legacyEntry).filterMap (fun e => evalPath e [Step.key "DevicePath"]) := rfl
  rw [step]
  exact filterMap_map_some legacyEntry (fun e => evalPath e [Step.key "DevicePath"])
    (fun x => Json.str x.path) (fun x => rfl) l

/-- C9: on a flat legacy document (bare entries exposing a DevicePath and
old-style size fields) the parser returns one record per entry whose
devicePath is the DevicePath verbatim, whose controller is inferred from
that path via getControllerFromNs, and whose four size fields are all the
sentinel -1 (the entry-level size fields present in this generation are
ignored, not read). -/
theorem flat_legacy_parse (l : List LegacyEntryData) (hne : l ≠ [])
    (hinf : ∀ x ∈ l, getControllerFromNs x.path = Except.ok x.controller) :
    getDeviceList (some (legacyDoc (l.map legacyEntry))) =
      Except.ok (l.map legacyRecord) := by
  have hmap : ∀ l2 : List LegacyEntryData,
      (∀ x ∈ l2, getControllerFromNs x.path = Except.ok x.controller) →
      (l2.map (fun x => Json.str x.path)).mapM parseLegacyPath =
        Except.ok (l2.map legacyRecord) := by
    intro l2
    induction l2 with
    | nil => intro _; rfl
    | cons a as ih =>
      intro h
      rw [List.map_cons, List.mapM_cons, parseLegacyPath_entry a (h a (List.mem_cons_self a as)),
        ih (fun x hx => h x (List.mem_cons_of_mem a hx))]
      rfl
  have hlen : 0 < (l.map (fun x => Json.str x.path)).length := by
    simpa using List.length_pos.mpr hne
  simp only [getDeviceList, branchAGuard_legacy, branchBGuard_legacy, branchCGuard_legacy,
    List.length_nil, Nat.lt_irrefl, if_false, if_pos hlen, hmap l hinf]
  simp [Except.bind]

/-- Witness for `flat_legacy_parse` at the TestGetDeviceListV1 fixture. -/
theorem flat_legacy_parse_witness :
    getDeviceList (some (legacyDoc [legacyEntry
      { path := "/dev/nvme0n1", controller := "nvme0", nsid := 1
        used := -2147483648, lba := 1875385008, phys := -2147483648, sect := 512 }])) =
      Except.ok
        [ { devicePath := "/dev/nvme0n1", nsController := "nvme0"
            nsPhysicalSize := -1, nsTotalCapacity := 0
            nsMaximumLBA := -1, nsUsedBytes := -1, nsSectorSize := -1 } ] := by
  have h := flat_legacy_parse
    [{ path := "/dev/nvme0n1", controller := "nvme0", nsid := 1
       used := -2147483648, lba := 1875385008, phys := -2147483648, sect := 512 }]
    (by simp)
    (by intro x hx
        simp only [List.mem_singleton] at hx
        rw [hx]
        rfl)
  simpa [legacyRecord] using h

theorem mapM_one {α β : Type} (f : α → Except String β) (a : α) :
    List.mapM f [a] = Except.bind (f a) (fun b => Except.ok [b]) := by
  rw [List.mapM_cons, List.mapM_nil]
  cases h : f a <;> simp [h, Except.bind]

/-- C2 counterexample: for the mixed document that lists the
controller-shape subsystem (namespace nvme3n1) before the bare-shape
subsystem (namespace nvme9n1), the parser still returns the bare-shape
record first — the output order is branch order, not the document
encounter order. -/
theorem encounter_order_counterexample :
    getDeviceList (some mixedDocCtrlFirst) = Except.ok [recBare, recCtrl] ∧
    recBare.devicePath = "/dev/nvme9n1" ∧
    recCtrl.devicePath = "/dev/nvme3n1" ∧
    [recBare.devicePath, recCtrl.devicePath] ≠ ["/dev/nvme3n1", "/dev/nvme9n1"] := by
  refine ⟨rfl, rfl, rfl, ?_⟩
  intro h
  simp [recBare, recCtrl] at h

/-- C2 amended: for every mixed document with one bare-shape subsystem
(canonical namespace name nvme<d1>n<d2>) and one controller-shape subsystem
(controller `ctrl`, namespace `n2`), in either document order, the parser
returns exactly two records, each associated with its own controller; the
bare-shape record always comes first (branch priority), and within each
branch the document order is preserved — so the output equals document
encounter order exactly when the bare subsystem is listed first. -/
theorem mixed_document_parse (d1 d2 : List Char) (h1 : d1 ≠ []) (h2 : d2 ≠ [])
    (hd1 : ∀ c ∈ d1, c.isDigit = true) (hd2 : ∀ c ∈ d2, c.isDigit = true)
    (ctrl n2 : String) (hc : ¬ ctrl = "") (u1 l1 p1 s1 u2 l2 p2 s2 : Int) (bareFirst : Bool) :
    getDeviceList (some (topDoc (
      if bareFirst then
        [ bareSubsystem [nsObj (canonNsName d1 d2) u1 l1 p1 s1]
        , ctrlSubsystem ctrl [nsObj n2 u2 l2 p2 s2] ]
      else
        [ ctrlSubsystem ctrl [nsObj n2 u2 l2 p2 s2]
        , bareSubsystem [nsObj (canonNsName d1 d2) u1 l1 p1 s1] ]))) =
    Except.ok
      [ { devicePath := "/dev/" ++ canonNsName d1 d2, nsController := canonCtrl d1
          nsPhysicalSize := p1, nsTotalCapacity := 0
          nsMaximumLBA := l1, nsUsedBytes := u1, nsSectorSize := s1 }
      , { devicePath := "/dev/" ++ n2, nsController := ctrl
          nsPhysicalSize := p2, nsTotalCapacity := 0
          nsMaximumLBA := l2, nsUsedBytes := u2, nsSectorSize := s2 } ] := by
  have hbare := parseBareNamespace_nsObj (canonNsName d1 d2) (canonCtrl d1) u1 l1 p1 s1
    (getController_canonical h1 h2 hd1 hd2)
  have hctrl := parseControllerEntry_one ctrl n2 u2 l2 p2 s2 hc
  cases bareFirst
  · have step : getDeviceList (some (topDoc
        [ ctrlSubsystem ctrl [nsObj n2 u2 l2 p2 s2]
        , bareSubsystem [nsObj (canonNsName d1 d2) u1 l1 p1 s1] ])) =
        Except.bind (List.mapM parseBareNamespace [nsObj (canonNsName d1 d2) u1 l1 p1 s1])
          (fun listA =>
            Except.bind (List.mapM parseControllerEntry
                [Json.obj [("Controller", Json.str ctrl),
                           ("Namespaces", Json.arr [nsObj n2 u2 l2 p2 s2])]])
              (fun parts => Except.ok (listA ++ parts.flatten))) := rfl
    rw [if_neg (by simp), step, mapM_one, mapM_one, hbare, hctrl]
    simp [Except.bind]
  · have step : getDeviceList (some (topDoc
        [ bareSubsystem [nsObj (canonNsName d1 d2) u1 l1 p1 s1]
        , ctrlSubsystem ctrl [nsObj n2 u2 l2 p2 s2] ])) =
        Except.bind (List.mapM parseBareNamespace [nsObj (canonNsName d1 d2) u1 l1 p1 s1])
          (fun listA =>
            Except.bind (List.mapM parseControllerEntry
                [Json.obj [("Controller", Json.str ctrl),
                           ("Namespaces", Json.arr [nsObj n2 u2 l2 p2 s2])]])
              (fun parts => Except.ok (listA ++ parts.flatten))) := rfl
    rw [if_pos rfl, step, mapM_one, mapM_one, hbare, hctrl]
    simp [Except.bind]

/-- Witness for `mixed_document_parse` at the reduced TestGetDeviceListV4
fixture (bare subsystem nvme9n1 first, controller subsystem nvme3 second). -/
theorem mixed_document_parse_witness :
    getDeviceList (some mixedDoc) = Except.ok [recBare, recCtrl] := by
  have h := mixed_document_parse ['9'] ['1'] (by decide) (by decide) (by decide) (by decide)
    "nvme3" "nvme3n1" (by decide) 137438953472 268435456 137438953472 512
    7486193664 1875385008 960197124096 512 true
  exact h

/-- C1 counterexample: on the mixed document the bare-namespace branch
alone yields the non-empty list [recBare], yet getDeviceList additionally
contains recCtrl contributed by the subsequent controller branch — the
branches are not mutually exclusive in effect. -/
theorem branch_exclusivity_counterexample :
    branchADevices mixedDoc = Except.ok [recBare] ∧
    getDeviceList (some mixedDoc) = Except.ok [recBare, recCtrl] ∧
    ([recBare, recCtrl] : List nvmeNamespace) ≠ [recBare] := by
  refine ⟨rfl, rfl, ?_⟩
  intro h
  simp at h

/-- C1 amended: the three branches are tried in the fixed order
bare-namespace, controller, flat legacy, but only the latter two are
mutually exclusive in effect: the bare-namespace branch never
short-circuits, its records always head the result list, and whichever of
the controller / flat-legacy branches is selected appends its own records
after them; when the controller query is non-empty the flat legacy branch
contributes nothing, when both are empty the parse fails fatally. -/
theorem branch_structure (doc : Json) :
    (0 < (branchBGuard doc).length →
      getDeviceList (some doc) =
        Except.bind (branchADevices doc) (fun a =>
          Except.bind (branchBDevices doc) (fun b => Except.ok (a ++ b)))) ∧
    ((branchBGuard doc).length = 0 → 0 < (branchCGuard doc).length →
      getDeviceList (some doc) =
        Except.bind (branchADevices doc) (fun a =>
          Except.bind (branchCDevices doc) (fun c => Except.ok (a ++ c)))) ∧
    ((branchBGuard doc).length = 0 → (branchCGuard doc).length = 0 →
      getDeviceList (some doc) =
        Except.bind (branchADevices doc) (fun _ =>
          Except.error "No NVMe Devices found")) := by
  have hgd : getDeviceList (some doc) =
      Except.bind (branchADevices doc) (fun listA =>
        if 0 < (branchBGuard doc).length then
          Except.bind ((((branchBGuard doc).flatMap jElems).flatMap jElems).mapM parseControllerEntry)
            (fun parts => Except.ok (listA ++ parts.flatten))
        else
          if 0 < (branchCGuard doc).length then
            Except.bind ((branchCGuard doc).mapM parseLegacyPath)
              (fun listC => Except.ok (listA ++ listC))
          else Except.error "No NVMe Devices found") := rfl
  have hbd : branchBDevices doc =
      Except.bind ((((branchBGuard doc).flatMap jElems).flatMap jElems).mapM parseControllerEntry)
        (fun parts => Except.ok parts.flatten) := rfl
  refine ⟨?_, ?_, ?_⟩
  · intro hb
    rw [hgd, hbd]
    cases hA : branchADevices doc with
    | error e => simp [Except.bind]
    | ok a =>
      simp only [Except.bind, if_pos hb]
      cases hB : (((branchBGuard doc).flatMap jElems).flatMap jElems).mapM parseControllerEntry with
      | error e => simp [Except.bind]
      | ok parts => simp [Except.bind]
  · intro hb hcpos
    have hbneg : ¬ 0 < (branchBGuard doc).length := by omega
    rw [hgd]
    cases hA : branchADevices doc with
    | error e => simp [Except.bind]
    | ok a =>
      simp only [Except.bind, if_neg hbneg, if_pos hcpos, branchCDevices]
  · intro hb hcz
    have hbneg : ¬ 0 < (branchBGuard doc).length := by omega
    have hcneg : ¬ 0 < (branchCGuard doc).length := by omega
    rw [hgd]
    cases hA : branchADevices doc with
    | error e => simp [Except.bind]
    | ok a => simp [Except.bind, if_neg hbneg, if_neg hcneg]

/-- Witness for `branch_structure` at the mixed document, whose controller
query is non-empty. -/
theorem branch_structure_witness :
    getDeviceList (some mixedDoc) =
      Except.bind (branchADevices mixedDoc) (fun a =>
        Except.bind (branchBDevices mixedDoc) (fun b => Except.ok (a ++ b))) :=
  (branch_structure mixedDoc).1 (by decide)
